import Mathlib

/-!
Shallow embedding of the duo-enforcer repository.

The repository contains two coexisting variants:
* an actor variant (`src/lib.rs`, `src/duo_driver.rs`, `src/duolingo.rs`):
  a background actor thread owning a `SharedState`, polled by `poll_duo`,
  with the day-boundary reconciliation in `Duolingo::get_daily_xp_progress`;
* an axum variant (`src/main.rs`): a web server whose `get_status_inner`
  recomputes the status per request and drives the `enforcer` marker file.

Network and filesystem effects are made explicit: fallible remote calls
become `Except String` parameters, the done-marker file becomes an
`Option String` (its content, `none` = absent), and filesystem operations
performed by the axum enforcer are additionally recorded in a trace list.
-/

/-- `Lesson` from `src/lib.rs`: one XP-earning event
(`time` seconds since epoch, `xp` amount; both `i64` in the source). -/
structure Lesson where
  time : Int
  xp : Int
deriving Repr, DecidableEq

/-- `DailyXPProgress` from `src/lib.rs`. -/
structure DailyXPProgress where
  xp_goal : Int
  lessons_today : List Lesson
  xp_today : Int
deriving Repr, DecidableEq

/-- `SharedState` from `src/lib.rs`. -/
structure SharedState where
  blocked : Bool
  xp_today : Int
  xp_goal : Int
  lessons : List Lesson
  last_error : Option String
deriving Repr, DecidableEq

/-- `impl Default for SharedState` from `src/lib.rs` lines 41-51. -/
def SharedState.default : SharedState :=
  { blocked := true
    xp_today := 0
    xp_goal := 0
    lessons := []
    last_error := none }

/-- The data fields of the `Duolingo` client from `src/duolingo.rs`
(the `ureq::Agent` carries no state relevant to the claims). -/
structure Duolingo where
  jwt : String
  username : String
  user_id : String
deriving Repr, DecidableEq

/-- The day-boundary reconciliation from
`Duolingo::get_daily_xp_progress`, `src/duolingo.rs` lines 143-148:
`time_discrepancy = midnight - reported_midnight`; if it is negative the
cutoff is `reported_midnight` unadjusted, otherwise
`reported_midnight + time_discrepancy`.  Timestamps are epoch seconds. -/
def adjusted_midnight (local_midnight reported_midnight : Int) : Int :=
  let time_discrepancy := local_midnight - reported_midnight
  if time_discrepancy < 0 then
    reported_midnight
  else
    reported_midnight + time_discrepancy

/-- The pure tail of `Duolingo::get_daily_xp_progress`,
`src/duolingo.rs` lines 143-162, after the HTTP response has been parsed
into `xpGoal`, `xpGains` and the reported-midnight timestamp, and with the
local midnight timestamp passed in explicitly:
filter the fetched lessons to those with `time > cutoff`, sum their `xp`. -/
def get_daily_xp_progress (xp_goal : Int) (xp_gains : List Lesson)
    (reported_midnight local_midnight : Int) : DailyXPProgress :=
  let cutoff_ts := adjusted_midnight local_midnight reported_midnight
  let lessons_today := xp_gains.filter (fun l => decide (cutoff_ts < l.time))
  let xp_today := (lessons_today.map Lesson.xp).sum
  { xp_goal := xp_goal
    lessons_today := lessons_today
    xp_today := xp_today }

/-- `xp_req` from `spawn_actor_thread`, `src/duo_driver.rs` line 29:
`let xp_req = 50; // daily XP requirement`. -/
def xp_req : Int := 50

/-- `poll_duo` from `src/duo_driver.rs` lines 77-106.
`fetch` is the outcome of `d.get_daily_xp_progress()` (only consulted when
a client is present); `today_str` is `Local::now().format("%Y-%m-%d")`;
`write_err` is the outcome of `fs::write(done_file, &today_str)`;
`done_file` is the marker file content (`none` = absent).
Returns the updated `SharedState` and marker file. -/
def poll_duo (duo : Option Duolingo) (fetch : Except String DailyXPProgress)
    (today_str : String) (write_err : Option String)
    (st : SharedState) (done_file : Option String) :
    SharedState × Option String :=
  match duo with
  | some _ =>
    match fetch with
    | .ok prog =>
      let st1 : SharedState :=
        { st with
          xp_goal := prog.xp_goal
          xp_today := prog.xp_today
          lessons := prog.lessons_today
          last_error := none
          blocked := decide (prog.xp_today < xp_req) }
      if xp_req ≤ prog.xp_today then
        match write_err with
        | none => (st1, some today_str)
        | some e =>
          ({ st1 with last_error := some ("Failed to write done file: " ++ e) },
           done_file)
      else
        (st1, done_file)
    | .error e =>
      ({ st with last_error := some ("Poll error: " ++ e) }, done_file)
  | none =>
    ({ st with
       last_error := some "No duolingo client available (JWT init failed)" },
     done_file)

/-- The actor's state: the optional client plus the shared status
(`duo` and `SHARED_STATE` in `src/duo_driver.rs`). -/
structure ActorState where
  duo : Option Duolingo
  shared : SharedState
deriving Repr, DecidableEq

/-- The `ActorCommand::UpdateJWT` arm of `spawn_actor_thread`,
`src/duo_driver.rs` lines 48-58.  `new_result` is the outcome of
`Duolingo::new(&new_jwt)`: on success the client is replaced and
`last_error` becomes the informational "JWT updated OK"; on failure the
client is left alone and `last_error` records the failure. -/
def handle_update_jwt (new_result : Except String Duolingo)
    (a : ActorState) : ActorState :=
  match new_result with
  | .ok d =>
    { duo := some d
      shared := { a.shared with last_error := some "JWT updated OK" } }
  | .error e =>
    { a with
      shared :=
        { a.shared with last_error := some ("JWT update failed: " ++ e) } }

/-- `Duolingo::update_jwt` from `src/duolingo.rs` lines 60-63:
`*self = Duolingo::new(new_jwt)?`.  On failure the `?` returns before the
assignment, so `self` is unchanged; returns the (possibly replaced)
client and the error, if any. -/
def Duolingo.update_jwt (self : Duolingo)
    (new_result : Except String Duolingo) : Duolingo × Option String :=
  match new_result with
  | .ok d => (d, none)
  | .error e => (self, some e)

/-- `DAILY_XP_GOAL` from `src/main.rs` line 34: `const DAILY_XP_GOAL: u32 = 100`. -/
def DAILY_XP_GOAL : Nat := 100

/-- `Status` from `src/main.rs` lines 214-220, the JSON body of
`GET /api/status` (its numeric fields are `u32` in the source). -/
structure Status where
  xp_goal : Nat
  xp_today : Nat
  lessons_today : List Lesson
  blocked : Bool
deriving Repr, DecidableEq

/-- Modelled from the spec: the `DailyProgress` snapshot returned by
`DuolingoApi::get_daily_progress`, whose implementation is not under
`src/` (only its caller `get_status_inner` in `src/main.rs` is).  Per
spec section 3 it is `{xp_goal, xp_today, lessons_today}` with `xp_goal`
the remote service's configured daily target. -/
structure DailyProgress where
  xp_goal : Nat
  xp_today : Nat
  lessons_today : List Lesson
deriving Repr, DecidableEq

/-- A filesystem operation performed by the `enforcer` module of
`src/main.rs` on the done-marker file (`~/.duo_done`). -/
inductive FsOp where
  | removeDoneMarker
  | writeDoneMarker (content : String)
deriving Repr, DecidableEq

/-- `enforcer::is_disarmed` from `src/main.rs` lines 53-55:
the marker file exists. -/
def is_disarmed (marker : Option String) : Bool :=
  marker.isSome

/-- `enforcer::block_all` from `src/main.rs` lines 57-67:
remove the marker file (a NotFound error is ignored).  Returns the new
marker state and the filesystem operation performed. -/
def block_all (marker : Option String) : Option String × List FsOp :=
  let _ := marker
  (none, [FsOp.removeDoneMarker])

/-- `enforcer::disarm` from `src/main.rs` lines 69-77:
write the marker file with empty content. -/
def disarm (marker : Option String) : Option String × List FsOp :=
  let _ := marker
  (some "", [FsOp.writeDoneMarker ""])

/-- `get_status_inner` from `src/main.rs` lines 222-240.  `fetch` is the
outcome of `duo.get_daily_progress().await` (a failure is wrapped by
`.context("Error fetching duolingo status")`).  On success, compute
`blocked = xp_today < DAILY_XP_GOAL`, run `block_all` or `disarm`
accordingly, and build the `Status` with `xp_goal := DAILY_XP_GOAL`.
Returns the response, the new marker state and the filesystem trace. -/
def get_status_inner (fetch : Except String DailyProgress)
    (marker : Option String) :
    Except String Status × Option String × List FsOp :=
  match fetch with
  | .error e =>
    (.error ("Error fetching duolingo status: " ++ e), marker, [])
  | .ok state =>
    let blocked := decide (state.xp_today < DAILY_XP_GOAL)
    let step := if blocked then block_all marker else disarm marker
    (.ok { xp_goal := DAILY_XP_GOAL
           xp_today := state.xp_today
           lessons_today := state.lessons_today
           blocked := blocked },
     step.1, step.2)

/-- The tail of `main` from `src/main.rs` lines 338-345: after
`axum::serve ... .await` returns (with whatever outcome `r`),
`enforcer::block_all()` runs unconditionally and then `r` is returned. -/
def main_after_serve (r : Except String Unit) (marker : Option String) :
    Except String Unit × Option String × List FsOp :=
  let step := block_all marker
  (r, step.1, step.2)

/-- C2: the day-boundary cutoff is `reported_midnight` unadjusted when
`discrepancy = local_midnight - reported_midnight` is negative, and
`reported_midnight + discrepancy` (i.e. `local_midnight`, hence the max
of the two) otherwise; the three test vectors of the spec hold for
every base timestamp `T`. -/
theorem C2_day_boundary_cutoff (local_midnight reported_midnight T : Int) :
    adjusted_midnight local_midnight reported_midnight =
      (if local_midnight - reported_midnight < 0 then reported_midnight
       else reported_midnight + (local_midnight - reported_midnight)) ∧
    adjusted_midnight local_midnight reported_midnight =
      max local_midnight reported_midnight ∧
    adjusted_midnight T T = T ∧
    adjusted_midnight (T + 3600) T = T + 3600 ∧
    adjusted_midnight (T - 3600) T = T := by
  refine ⟨rfl, ?_, ?_, ?_, ?_⟩ <;>
    simp only [adjusted_midnight] <;> split <;> omega

/-- C3: in every `DailyXPProgress` built by `get_daily_xp_progress`,
`lessons_today` is exactly the fetched lessons whose `time` is strictly
greater than the cutoff, `xp_today` is the sum of their `xp` fields, and
a successful `poll_duo` copies both into `SharedState` so that the same
equalities hold for the shared status. -/
theorem C3_lessons_today_and_xp_sum (goal : Int) (xp_gains : List Lesson)
    (reported_midnight local_midnight : Int) (d : Duolingo)
    (today_str : String) (write_err : Option String)
    (st : SharedState) (done_file : Option String) :
    let cutoff := adjusted_midnight local_midnight reported_midnight
    let p := get_daily_xp_progress goal xp_gains reported_midnight local_midnight
    let st1 := (poll_duo (some d) (.ok p) today_str write_err st done_file).1
    p.lessons_today = xp_gains.filter (fun l => decide (cutoff < l.time)) ∧
    (∀ l, l ∈ p.lessons_today ↔ l ∈ xp_gains ∧ cutoff < l.time) ∧
    p.xp_today = (p.lessons_today.map Lesson.xp).sum ∧
    st1.xp_today = p.xp_today ∧
    st1.lessons = p.lessons_today ∧
    st1.xp_today = (st1.lessons.map Lesson.xp).sum := by
  refine ⟨rfl, ?_, rfl, ?_, ?_, ?_⟩
  · intro l
    simp [get_daily_xp_progress, List.mem_filter]
  all_goals
    simp only [poll_duo]
    split <;> (try split) <;> rfl

/-- C1 counterexample: a successful `poll_duo` snapshot with
`xp_today = 60 < 100` yields `blocked = false`, because the actor's
requirement `xp_req` is 50, not 100. -/
theorem C1_counterexample :
    (poll_duo (some { jwt := "j", username := "u", user_id := "i" })
        (.ok { xp_goal := 100
               lessons_today := [{ time := 1, xp := 60 }]
               xp_today := 60 })
        "2026-10-12" none SharedState.default none).1.blocked = false ∧
    (60 : Int) < 100 := by
  decide

/-- C1 (amended): `blocked` is `xp_today < requirement`, where the
requirement is `DAILY_XP_GOAL = 100` in the axum `get_status_inner` but
`xp_req = 50` in the actor's `poll_duo`; in both variants
`xp_today = 100` yields `blocked = false`. -/
theorem C1_blocked_threshold (p : DailyXPProgress) (d : Duolingo)
    (today_str : String) (write_err : Option String) (st : SharedState)
    (done_file : Option String) (s : DailyProgress) (marker : Option String) :
    (poll_duo (some d) (.ok p) today_str write_err st done_file).1.blocked
      = decide (p.xp_today < xp_req) ∧
    xp_req = 50 ∧
    (get_status_inner (.ok s) marker).1 =
      .ok { xp_goal := DAILY_XP_GOAL
            xp_today := s.xp_today
            lessons_today := s.lessons_today
            blocked := decide (s.xp_today < DAILY_XP_GOAL) } ∧
    DAILY_XP_GOAL = 100 ∧
    decide ((100 : Int) < xp_req) = false ∧
    decide ((100 : Nat) < DAILY_XP_GOAL) = false := by
  refine ⟨?_, rfl, ?_, rfl, by decide, by decide⟩
  · simp only [poll_duo]
    split <;> (try split) <;> rfl
  · simp only [get_status_inner]

/-- C4: a failed `UpdateJWT` on an actor that already holds a client
leaves the client and every `SharedState` field other than `last_error`
unchanged, and sets `last_error` to the failure reason; likewise
`Duolingo::update_jwt` keeps `self` unchanged on failure. -/
theorem C4_failed_update_jwt_frame (e : String) (a : ActorState)
    (d : Duolingo) (h : a.duo = some d) :
    (handle_update_jwt (.error e) a).duo = some d ∧
    (handle_update_jwt (.error e) a).shared.blocked = a.shared.blocked ∧
    (handle_update_jwt (.error e) a).shared.xp_today = a.shared.xp_today ∧
    (handle_update_jwt (.error e) a).shared.xp_goal = a.shared.xp_goal ∧
    (handle_update_jwt (.error e) a).shared.lessons = a.shared.lessons ∧
    (handle_update_jwt (.error e) a).shared.last_error
      = some ("JWT update failed: " ++ e) ∧
    (Duolingo.update_jwt d (.error e)).1 = d :=
  ⟨by simp [handle_update_jwt, h], rfl, rfl, rfl, rfl, rfl, rfl⟩

/-- C4 witness: the frame property at a concrete `Ready` actor state
and failure message. -/
theorem C4_failed_update_jwt_frame_witness :
    (handle_update_jwt (.error "bad token")
        { duo := some { jwt := "j", username := "u", user_id := "i" }
          shared := SharedState.default }).duo
      = some { jwt := "j", username := "u", user_id := "i" } ∧
    (handle_update_jwt (.error "bad token")
        { duo := some { jwt := "j", username := "u", user_id := "i" }
          shared := SharedState.default }).shared.blocked
      = SharedState.default.blocked ∧
    (handle_update_jwt (.error "bad token")
        { duo := some { jwt := "j", username := "u", user_id := "i" }
          shared := SharedState.default }).shared.xp_today
      = SharedState.default.xp_today ∧
    (handle_update_jwt (.error "bad token")
        { duo := some { jwt := "j", username := "u", user_id := "i" }
          shared := SharedState.default }).shared.xp_goal
      = SharedState.default.xp_goal ∧
    (handle_update_jwt (.error "bad token")
        { duo := some { jwt := "j", username := "u", user_id := "i" }
          shared := SharedState.default }).shared.lessons
      = SharedState.default.lessons ∧
    (handle_update_jwt (.error "bad token")
        { duo := some { jwt := "j", username := "u", user_id := "i" }
          shared := SharedState.default }).shared.last_error
      = some ("JWT update failed: " ++ "bad token") ∧
    (Duolingo.update_jwt { jwt := "j", username := "u", user_id := "i" }
        (.error "bad token")).1
      = { jwt := "j", username := "u", user_id := "i" } :=
  C4_failed_update_jwt_frame "bad token"
    { duo := some { jwt := "j", username := "u", user_id := "i" }
      shared := SharedState.default }
    { jwt := "j", username := "u", user_id := "i" } rfl

/-- C5: a successful poll in the `Ready` state replaces `xp_goal`,
`xp_today` and `lessons` wholesale from the snapshot and sets
`blocked = xp_today < xp_req` (in every write outcome); with a clean
write, `last_error` is `none` and, exactly when the quota is met, the
done marker is written with today's date string as content; a failed
write sets `last_error` to the write failure (leaving `blocked` and the
other fields as just computed) and leaves the marker file unchanged. -/
theorem C5_successful_poll (d : Duolingo) (prog : DailyXPProgress)
    (today_str e : String) (write_err : Option String)
    (st : SharedState) (done_file : Option String) :
    (poll_duo (some d) (.ok prog) today_str write_err st done_file).1.xp_goal
      = prog.xp_goal ∧
    (poll_duo (some d) (.ok prog) today_str write_err st done_file).1.xp_today
      = prog.xp_today ∧
    (poll_duo (some d) (.ok prog) today_str write_err st done_file).1.lessons
      = prog.lessons_today ∧
    (poll_duo (some d) (.ok prog) today_str write_err st done_file).1.blocked
      = decide (prog.xp_today < xp_req) ∧
    (poll_duo (some d) (.ok prog) today_str none st done_file).1.last_error
      = none ∧
    (poll_duo (some d) (.ok prog) today_str none st done_file).2
      = (if xp_req ≤ prog.xp_today then some today_str else done_file) ∧
    (poll_duo (some d) (.ok prog) today_str (some e) st done_file).1.last_error
      = (if xp_req ≤ prog.xp_today
         then some ("Failed to write done file: " ++ e) else none) ∧
    (poll_duo (some d) (.ok prog) today_str (some e) st done_file).2
      = done_file := by
  refine ⟨?_, ?_, ?_, ?_, ?_, ?_, ?_, ?_⟩ <;>
    simp only [poll_duo] <;> split <;> (try split) <;> rfl

/-- C6: a failed poll in the `Ready` state changes `last_error` only,
setting it to the failure description; `blocked`, `xp_today`, `xp_goal`,
`lessons` and the marker file keep their previous values. -/
theorem C6_failed_poll_frame (d : Duolingo) (e today_str : String)
    (write_err : Option String) (st : SharedState)
    (done_file : Option String) :
    poll_duo (some d) (.error e) today_str write_err st done_file
      = ({ st with last_error := some ("Poll error: " ++ e) }, done_file) ∧
    (poll_duo (some d) (.error e) today_str write_err st done_file).1.blocked
      = st.blocked ∧
    (poll_duo (some d) (.error e) today_str write_err st done_file).1.xp_today
      = st.xp_today ∧
    (poll_duo (some d) (.error e) today_str write_err st done_file).1.xp_goal
      = st.xp_goal ∧
    (poll_duo (some d) (.error e) today_str write_err st done_file).1.lessons
      = st.lessons :=
  ⟨rfl, rfl, rfl, rfl, rfl⟩

/-- C7 counterexample: a poll with no client sets `last_error` to
`"No duolingo client available (JWT init failed)"`, not to the claimed
`"no client available"`. -/
theorem C7_counterexample :
    (poll_duo none (.error "") "2026-10-12" none
        SharedState.default none).1.last_error
      ≠ some "no client available" := by
  decide

/-- C7 (amended): a poll while `Uninitialized` (no client) is total
(never panics), sets `last_error` to the code's message
`"No duolingo client available (JWT init failed)"`, and leaves every
other field and the marker file unchanged; started from the defaults the
other fields stay `blocked = true`, zeros and empty lessons. -/
theorem C7_uninitialized_poll (fetch : Except String DailyXPProgress)
    (today_str : String) (write_err : Option String)
    (st : SharedState) (done_file : Option String) :
    poll_duo none fetch today_str write_err st done_file
      = ({ st with
           last_error :=
             some "No duolingo client available (JWT init failed)" },
         done_file) ∧
    (poll_duo none fetch today_str write_err
        SharedState.default none).1.blocked = true ∧
    (poll_duo none fetch today_str write_err
        SharedState.default none).1.xp_today = 0 ∧
    (poll_duo none fetch today_str write_err
        SharedState.default none).1.xp_goal = 0 ∧
    (poll_duo none fetch today_str write_err
        SharedState.default none).1.lessons = [] ∧
    (poll_duo none fetch today_str write_err
        SharedState.default none).2 = none :=
  ⟨rfl, rfl, rfl, rfl, rfl, rfl⟩

/-- C8 counterexample: with a snapshot whose remote daily target is 30,
a successful `get_status_inner` returns `xp_goal = 100` (the local
constant `DAILY_XP_GOAL`), not the remote value 30. -/
theorem C8_counterexample :
    (get_status_inner
        (.ok { xp_goal := 30, xp_today := 60, lessons_today := [] })
        none).1
      = .ok { xp_goal := 100, xp_today := 60, lessons_today := []
              blocked := true } ∧
    (100 : Nat) ≠ 30 := by
  refine ⟨?_, by decide⟩
  simp only [get_status_inner]
  rfl

/-- C8 (amended): in the actor variant `xp_goal` does come from the
remote snapshot (`get_daily_xp_progress` passes the fetched `xpGoal`
through and `poll_duo` copies it into `SharedState`), but the `Status`
JSON returned by the axum `GET /api/status` carries the locally fixed
constant `DAILY_XP_GOAL = 100`, ignoring the snapshot's target. -/
theorem C8_xp_goal_source (goal : Int) (xp_gains : List Lesson)
    (reported_midnight local_midnight : Int) (d : Duolingo)
    (p : DailyXPProgress) (today_str : String) (write_err : Option String)
    (st : SharedState) (done_file : Option String)
    (s : DailyProgress) (marker : Option String) :
    (get_daily_xp_progress goal xp_gains reported_midnight
        local_midnight).xp_goal = goal ∧
    (poll_duo (some d) (.ok p) today_str write_err st done_file).1.xp_goal
      = p.xp_goal ∧
    (get_status_inner (.ok s) marker).1
      = .ok { xp_goal := DAILY_XP_GOAL
              xp_today := s.xp_today
              lessons_today := s.lessons_today
              blocked := decide (s.xp_today < DAILY_XP_GOAL) } ∧
    DAILY_XP_GOAL = 100 := by
  refine ⟨rfl, ?_, ?_, rfl⟩
  · simp only [poll_duo]
    split <;> (try split) <;> rfl
  · simp only [get_status_inner]

/-- C9: every successful `GET /api/status` in the axum variant performs
a marker-file operation besides returning JSON: when `blocked` the
marker is removed, otherwise it is written with empty content; the
filesystem trace is never empty. -/
theorem C9_status_read_side_effect (s : DailyProgress)
    (marker : Option String) :
    (get_status_inner (.ok s) marker).1
      = .ok { xp_goal := DAILY_XP_GOAL
              xp_today := s.xp_today
              lessons_today := s.lessons_today
              blocked := decide (s.xp_today < DAILY_XP_GOAL) } ∧
    (get_status_inner (.ok s) marker).2.1
      = (if s.xp_today < DAILY_XP_GOAL then none else some "") ∧
    (get_status_inner (.ok s) marker).2.2
      = (if s.xp_today < DAILY_XP_GOAL
         then [FsOp.removeDoneMarker] else [FsOp.writeDoneMarker ""]) ∧
    (get_status_inner (.ok s) marker).2.2 ≠ [] := by
  simp only [get_status_inner, block_all, disarm]
  by_cases h : s.xp_today < DAILY_XP_GOAL <;> simp [h]

/-- C10: after `axum::serve` returns, `main` unconditionally runs
`enforcer::block_all`, so whatever the serve outcome and the prior
marker state, the process exits with the marker file absent — the
externally visible enforcement state is blocked (`is_disarmed = false`). -/
theorem C10_shutdown_blocks (r : Except String Unit)
    (marker : Option String) :
    (main_after_serve r marker).2.1 = none ∧
    is_disarmed (main_after_serve r marker).2.1 = false ∧
    (main_after_serve r marker).2.2 = [FsOp.removeDoneMarker] ∧
    (main_after_serve r marker).1 = r :=
  ⟨rfl, rfl, rfl, rfl⟩
